import Mathlib

/-!
Shallow embedding of the WebTransport voice chat demo client
(`VoiceChatClient`) and proofs about its protocol behaviour.

Bytes (`Uint8Array` cells) are modelled as `Nat` values, constrained to
`< 256` where that matters.  JS `bigint` session identifiers are modelled
as `Int` (protobuf `int64`).  The protobuf wire codec is out of scope of
the engine (a pure dependency), so operations are parametrised by an
abstract `ProtoCodec`; a decoder returning `none` models `fromBinary`
throwing (which the client catches and logs).
-/

/-! ## Protobuf message types (from packet.proto and common.proto) -/

structure AuthRequest where
  username : String
  token : String
deriving DecidableEq

structure AuthResponseSuccess where
  sessionId : Int
deriving DecidableEq

structure AuthResponseError where
  type : Nat
deriving DecidableEq

structure RoomUser where
  sessionId : Int
  username : String
deriving DecidableEq

structure JoinRoomRequest where
  roomKey : String
deriving DecidableEq

structure JoinRoomResponse where
  users : List RoomUser
deriving DecidableEq

/-! ## Packet type discriminants (enum PacketType in packet.proto) -/

def PacketType.AUTH_REQUEST : Nat := 0
def PacketType.AUTH_RESPONSE_SUCCESS : Nat := 1
def PacketType.AUTH_RESPONSE_ERROR : Nat := 2
def PacketType.JOIN_ROOM_REQUEST : Nat := 3
def PacketType.JOIN_ROOM_RESPONSE : Nat := 4
def PacketType.USER_JOINED : Nat := 5
def PacketType.USER_LEFT : Nat := 6

/-- Abstract protobuf codec (`toBinary` / `fromBinary`): the client treats it
as a pure dependency.  A decoder result of `none` models a decode throw,
which each handler catches. -/
structure ProtoCodec where
  encAuthRequest : AuthRequest → List Nat
  encJoinRoomRequest : JoinRoomRequest → List Nat
  decAuthResponseSuccess : List Nat → Option AuthResponseSuccess
  decAuthResponseError : List Nat → Option AuthResponseError
  decJoinRoomResponse : List Nat → Option JoinRoomResponse
  decRoomUser : List Nat → Option RoomUser

/-! ## Client session state (the mutable fields of `VoiceChatClient`) -/

structure ClientState where
  connected : Bool
  sessionId : Option Int
  username : Option String
  currentRoomKey : Option String
  datagramWriter : Bool
  wtClosed : Bool
deriving DecidableEq

/-- JS truthiness of `this.sessionId` (a `bigint | null`): `!v` is true
exactly when the value is `null` or `0n`. -/
def jsTruthyBigint (v : Option Int) : Bool :=
  match v with
  | none => false
  | some n => n != 0

/-- JS truthiness of `this.currentRoomKey` (a `string | null`): `!v` is true
exactly when the value is `null` or the empty string. -/
def jsTruthyString (v : Option String) : Bool :=
  match v with
  | none => false
  | some str => str != ""

/-- Errors thrown synchronously by client operations (`throw new Error(...)`). -/
inductive ClientError
  | notConnected
  | notAuthenticated
  | notInRoom
  | writerUnavailable
deriving DecidableEq

/-- Result of one client operation: the state afterwards, the datagrams
written to the transport (in order), and the error thrown, if any. -/
structure OpResult where
  state : ClientState
  writes : List (List Nat)
  error : Option ClientError
deriving DecidableEq

/-- VoiceChatClient.bytesToBigInt: big-endian fold
`result = (result << 8n) | BigInt(bytes[i])`. -/
def bytesToBigInt (bytes : List Nat) : Nat :=
  bytes.foldl (fun result b => result <<< 8 ||| b) 0

/-- The messages `sendProtobufMessage` accepts (the `PacketTypeToMessage` map:
only AUTH_REQUEST and JOIN_ROOM_REQUEST can be originated by the client). -/
inductive ClientMessage
  | auth (m : AuthRequest)
  | join (m : JoinRoomRequest)

/-- VoiceChatClient.sendProtobufMessage: requires the datagram writer; writes
one datagram `[packetType] ++ toBinary(message)`. -/
def sendProtobufMessage (c : ProtoCodec) (s : ClientState) (msg : ClientMessage) : OpResult :=
  if !s.datagramWriter then ⟨s, [], some .writerUnavailable⟩
  else
    match msg with
    | .auth m => ⟨s, [PacketType.AUTH_REQUEST :: c.encAuthRequest m], none⟩
    | .join m => ⟨s, [PacketType.JOIN_ROOM_REQUEST :: c.encJoinRoomRequest m], none⟩

/-- VoiceChatClient.authenticate: requires `connected`; records the username
locally, then sends an AUTH_REQUEST (with the unused token empty). -/
def authenticate (c : ProtoCodec) (s : ClientState) (username : String) : OpResult :=
  if !s.connected then ⟨s, [], some .notConnected⟩
  else
    sendProtobufMessage c { s with username := some username } (.auth ⟨username, ""⟩)

/-- VoiceChatClient.joinRoom: requires `connected` and a truthy `sessionId`;
records the room key optimistically, then sends a JOIN_ROOM_REQUEST. -/
def joinRoom (c : ProtoCodec) (s : ClientState) (roomKey : String) : OpResult :=
  if !s.connected then ⟨s, [], some .notConnected⟩
  else if !jsTruthyBigint s.sessionId then ⟨s, [], some .notAuthenticated⟩
  else
    sendProtobufMessage c { s with currentRoomKey := some roomKey } (.join ⟨roomKey⟩)

/-- VoiceChatClient.leaveRoom: requires `connected`, truthy `sessionId` and a
truthy room key; clears the room key locally (no wire message). -/
def leaveRoom (s : ClientState) : OpResult :=
  if !s.connected then ⟨s, [], some .notConnected⟩
  else if !jsTruthyBigint s.sessionId then ⟨s, [], some .notAuthenticated⟩
  else if !jsTruthyString s.currentRoomKey then ⟨s, [], some .notInRoom⟩
  else ⟨{ s with currentRoomKey := none }, [], none⟩

/-- VoiceChatClient.sendVoiceData: requires `connected`, truthy `sessionId`,
truthy room key and the datagram writer; writes one datagram
`[0xFF] ++ data` (only the sentinel byte is prepended). -/
def sendVoiceData (s : ClientState) (data : List Nat) : OpResult :=
  if !s.connected then ⟨s, [], some .notConnected⟩
  else if !jsTruthyBigint s.sessionId then ⟨s, [], some .notAuthenticated⟩
  else if !jsTruthyString s.currentRoomKey then ⟨s, [], some .notInRoom⟩
  else if !s.datagramWriter then ⟨s, [], some .writerUnavailable⟩
  else ⟨s, [255 :: data], none⟩

/-- VoiceChatClient.close: releases the datagram writer, closes the
transport, and resets `connected`, `sessionId`, `username` and
`currentRoomKey`. -/
def close (_s : ClientState) : ClientState :=
  { connected := false, sessionId := none, username := none,
    currentRoomKey := none, datagramWriter := false, wtClosed := true }

/-! ## Inbound dispatch -/

/-- Callback invocations through `VoiceChatClientEvents`. -/
inductive ClientEvent
  | onConnected
  | onConnectionClosed
  | onAuthSuccess (sessionId : Int)
  | onAuthError (errorType : Nat)
  | onJoinedRoom (users : List RoomUser)
  | onUserJoined (user : RoomUser)
  | onUserLeft (sessionId : Int)
  | onVoiceData (sessionId : Int) (data : List Nat)
deriving DecidableEq

/-- Console log outputs produced during dispatch. -/
inductive ConsoleEntry
  | warnUnknownPacketType (packetType : Nat)
  | errorParsingAuthSuccess
  | errorParsingAuthError
  | errorParsingJoinRoomResponse
  | errorParsingUserJoined
deriving DecidableEq

/-- Result of dispatching one inbound unit: state afterwards, callbacks
fired (in order), console output.  Dispatch never throws to the read loop. -/
structure DispatchResult where
  state : ClientState
  events : List ClientEvent
  logs : List ConsoleEntry
deriving DecidableEq

/-- VoiceChatClient.handleAuthResponseSuccess: on decode success stores the
session id and fires `onAuthSuccess`; a decode throw is caught and logged. -/
def handleAuthResponseSuccess (c : ProtoCodec) (s : ClientState) (data : List Nat) :
    DispatchResult :=
  match c.decAuthResponseSuccess data with
  | some r => ⟨{ s with sessionId := some r.sessionId }, [.onAuthSuccess r.sessionId], []⟩
  | none => ⟨s, [], [.errorParsingAuthSuccess]⟩

/-- VoiceChatClient.handleAuthResponseError: fires `onAuthError` with the
error type; a decode throw is caught and logged; state untouched. -/
def handleAuthResponseError (c : ProtoCodec) (s : ClientState) (data : List Nat) :
    DispatchResult :=
  match c.decAuthResponseError data with
  | some r => ⟨s, [.onAuthError r.type], []⟩
  | none => ⟨s, [], [.errorParsingAuthError]⟩

/-- VoiceChatClient.handleJoinRoomResponse: fires `onJoinedRoom` with the
roster; a decode throw is caught and logged; state untouched. -/
def handleJoinRoomResponse (c : ProtoCodec) (s : ClientState) (data : List Nat) :
    DispatchResult :=
  match c.decJoinRoomResponse data with
  | some r => ⟨s, [.onJoinedRoom r.users], []⟩
  | none => ⟨s, [], [.errorParsingJoinRoomResponse]⟩

/-- VoiceChatClient.handleUserJoined: fires `onUserJoined` with the decoded
user; a decode throw is caught and logged; state untouched. -/
def handleUserJoined (c : ProtoCodec) (s : ClientState) (data : List Nat) :
    DispatchResult :=
  match c.decRoomUser data with
  | some u => ⟨s, [.onUserJoined u], []⟩
  | none => ⟨s, [], [.errorParsingUserJoined]⟩

/-- VoiceChatClient.handleUserLeft: when at least 8 bytes are present, fires
`onUserLeft` with `bytesToBigInt` of the ENTIRE payload; otherwise does
nothing.  `bytesToBigInt` cannot throw, so the catch branch is dead. -/
def handleUserLeft (s : ClientState) (data : List Nat) : DispatchResult :=
  if data.length ≥ 8 then ⟨s, [.onUserLeft (bytesToBigInt data)], []⟩
  else ⟨s, [], []⟩

/-- VoiceChatClient.processProtobufData: zero-length input returns silently;
the first byte selects the handler; unknown types produce a console warning
and are dropped. -/
def processProtobufData (c : ProtoCodec) (s : ClientState) (data : List Nat) :
    DispatchResult :=
  match data with
  | [] => ⟨s, [], []⟩
  | packetType :: messageData =>
    if packetType = PacketType.AUTH_RESPONSE_SUCCESS then
      handleAuthResponseSuccess c s messageData
    else if packetType = PacketType.AUTH_RESPONSE_ERROR then
      handleAuthResponseError c s messageData
    else if packetType = PacketType.JOIN_ROOM_RESPONSE then
      handleJoinRoomResponse c s messageData
    else if packetType = PacketType.USER_JOINED then
      handleUserJoined c s messageData
    else if packetType = PacketType.USER_LEFT then
      handleUserLeft s messageData
    else
      ⟨s, [], [.warnUnknownPacketType packetType]⟩

/-- VoiceChatClient.processDatagramData: a non-empty datagram whose first
byte is 0xFF is the voice path — after the sentinel, 8 bytes of big-endian
session id then audio; with fewer than 8 remaining bytes nothing happens.
Anything else goes to `processProtobufData`. -/
def processDatagramData (c : ProtoCodec) (s : ClientState) (data : List Nat) :
    DispatchResult :=
  if 0 < data.length ∧ data.head! = 255 then
    let voiceData := data.drop 1
    if voiceData.length ≥ 8 then
      ⟨s, [.onVoiceData (bytesToBigInt (voiceData.take 8) : Int) (voiceData.drop 8)], []⟩
    else
      ⟨s, [], []⟩
  else
    processProtobufData c s data

/-- The spec's session-state names, as a view of the client's fields: the
code has no state enum; the spec states are determined by `connected`,
`sessionId` and `currentRoomKey` (with JS truthiness). -/
inductive SessionStateName
  | disconnected
  | connected
  | authenticated
  | inRoom
deriving DecidableEq

/-- Derived session state of a `ClientState`, matching the preconditions the
operations test. -/
def sessionStateName (s : ClientState) : SessionStateName :=
  if !s.connected then .disconnected
  else if !jsTruthyBigint s.sessionId then .connected
  else if !jsTruthyString s.currentRoomKey then .authenticated
  else .inRoom

/-! ## Spec-level wire format of a voice frame -/

/-- Big-endian byte decomposition of a natural number into `w` bytes. -/
def beBytes (w : Nat) (n : Nat) : List Nat :=
  match w with
  | 0 => []
  | w + 1 => beBytes w (n / 256) ++ [n % 256]

/-- Modelled from the spec: the on-the-wire voice datagram format of §6,
`0xFF | u64-be session id | raw audio bytes`.  The client SEND path does not
construct this form (it prepends only the sentinel); the session-id prefix
appears on frames the client receives. -/
def specEncodeVoiceFrame (sessionId : Nat) (audio : List Nat) : List Nat :=
  255 :: (beBytes 8 sessionId ++ audio)

/-! ## Spec-modelled Room Membership Tracker

The Room Membership Tracker of spec §3/§4.4 is not present under `src/`:
the client dispatch only forwards `onJoinedRoom`/`onUserJoined`/`onUserLeft`
events to its observer.  It is modelled here from the spec's words. -/

/-- Modelled from the spec: Room Membership Tracker state — a mapping from
session identifier to RoomUser with unique keys, represented as an
association list keyed by `RoomUser.sessionId`. -/
abbrev Tracker := List RoomUser

/-- Modelled from the spec: `seed(roster)` replaces the map atomically. -/
def Tracker.seed (roster : List RoomUser) : Tracker := roster

/-- Modelled from the spec: `add(user)` inserts or overwrites by session
identifier. -/
def Tracker.add (t : Tracker) (u : RoomUser) : Tracker :=
  (List.filter (fun v => v.sessionId != u.sessionId) t) ++ [u]

/-- Modelled from the spec: `remove(sessionId)` deletes if present; removing
an absent identifier is a silent no-op. -/
def Tracker.remove (t : Tracker) (id : Int) : Tracker :=
  List.filter (fun v => v.sessionId != id) t

/-- Modelled from the spec: the key set of the tracker map. -/
def Tracker.keys (t : Tracker) : List Int :=
  List.map RoomUser.sessionId t

/-- Modelled from the spec: the events the tracker reacts to after being
seeded — USER_JOINED, USER_LEFT, leaving the room, and connection drop. -/
inductive TrackerEvent
  | joined (u : RoomUser)
  | left (id : Int)
  | roomLeft
  | connectionDropped
deriving DecidableEq

/-- Modelled from the spec: one tracker step; the map is cleared when the
room is left or the connection drops. -/
def Tracker.applyEvent (t : Tracker) (e : TrackerEvent) : Tracker :=
  match e with
  | .joined u => t.add u
  | .left id => t.remove id
  | .roomLeft => []
  | .connectionDropped => []

/-- Modelled from the spec: seed with the JOIN_ROOM_RESPONSE roster, then
apply the subsequent notifications in arrival order. -/
def Tracker.run (roster : List RoomUser) (evs : List TrackerEvent) : Tracker :=
  evs.foldl Tracker.applyEvent (Tracker.seed roster)

/-- Per-identifier membership as the claim words it: the identifier is a
member exactly when it is in the roster or was joined, minus the leaves,
applied in arrival order (clearing events drop everything). -/
def memberSpec (roster : List RoomUser) (evs : List TrackerEvent) (id : Int) : Bool :=
  evs.foldl
    (fun b e =>
      match e with
      | .joined u => if u.sessionId = id then true else b
      | .left i => if i = id then false else b
      | .roomLeft => false
      | .connectionDropped => false)
    ((Tracker.seed roster).keys.contains id)

/-! ## Concrete fixtures used by witnesses and counterexamples -/

/-- A codec instance with computable components, used to instantiate the
codec-generic theorems at concrete inputs. -/
def testCodec : ProtoCodec where
  encAuthRequest := fun _ => [10]
  encJoinRoomRequest := fun _ => [11]
  decAuthResponseSuccess := fun d => some ⟨(d.length : Int)⟩
  decAuthResponseError := fun d => some ⟨d.length⟩
  decJoinRoomResponse := fun _ => some ⟨[⟨7, "alice"⟩]⟩
  decRoomUser := fun d => some ⟨(d.length : Int), "bob"⟩

/-- A state as it is after connect, authenticate (session id 42) and
joinRoom("room1"): the InRoom configuration. -/
def sInRoom42 : ClientState :=
  { connected := true, sessionId := some 42, username := some "alice",
    currentRoomKey := some "room1", datagramWriter := true, wtClosed := false }

/-- The freshly constructed, not yet connected state. -/
def sInitial : ClientState :=
  { connected := false, sessionId := none, username := none,
    currentRoomKey := none, datagramWriter := false, wtClosed := false }

/-- A connected-but-unauthenticated state. -/
def sConnected : ClientState :=
  { connected := true, sessionId := none, username := none,
    currentRoomKey := none, datagramWriter := true, wtClosed := false }

/-- An authenticated state (session id 42) that has not joined a room. -/
def sAuthenticated : ClientState :=
  { connected := true, sessionId := some 42, username := some "alice",
    currentRoomKey := none, datagramWriter := true, wtClosed := false }

/-! ## Helper lemmas -/

/-- One fold step of `bytesToBigInt` on a genuine byte is base-256
accumulation. -/
theorem shiftLeft_lor_byte (a b : Nat) (hb : b < 256) :
    a <<< 8 ||| b = a * 256 + b := by
  have h := (Nat.mul_add_lt_is_or (i := 8) hb a).symm
  rw [Nat.shiftLeft_eq]
  calc a * 2 ^ 8 ||| b = 2 ^ 8 * a ||| b := by rw [Nat.mul_comm]
    _ = 2 ^ 8 * a + b := h
    _ = a * 256 + b := by rw [Nat.mul_comm]

theorem beBytes_length (w n : Nat) : (beBytes w n).length = w := by
  induction w generalizing n with
  | zero => rfl
  | succ w ih => simp [beBytes, ih]

theorem bytesToBigInt_fold (w : Nat) : ∀ (n acc : Nat),
    List.foldl (fun result b => result <<< 8 ||| b) acc (beBytes w n)
      = acc * 2 ^ (8 * w) + n % 2 ^ (8 * w) := by
  induction w with
  | zero => intro n acc; simp [beBytes, Nat.mod_one]
  | succ w ih =>
    intro n acc
    rw [beBytes, List.foldl_append, ih (n / 256) acc]
    simp only [List.foldl_cons, List.foldl_nil]
    rw [shiftLeft_lor_byte _ _ (Nat.mod_lt _ (by norm_num))]
    have hpow : 2 ^ (8 * (w + 1)) = 256 * 2 ^ (8 * w) := by
      rw [Nat.mul_add, Nat.pow_add, Nat.mul_comm]
    rw [hpow, Nat.mod_mul]
    ring

/-- Decoding the 8-byte big-endian prefix recovers any session identifier
below 2^64. -/
theorem bytesToBigInt_beBytes (n : Nat) (h : n < 2 ^ 64) :
    bytesToBigInt (beBytes 8 n) = n := by
  have := bytesToBigInt_fold 8 n 0
  simp only [bytesToBigInt, this]
  norm_num
  omega

/-- The control-packet dispatch path never fires `onVoiceData`. -/
theorem processProtobufData_no_voice (c : ProtoCodec) (s : ClientState)
    (d : List Nat) (id : Int) (audio : List Nat) :
    ClientEvent.onVoiceData id audio ∉ (processProtobufData c s d).events := by
  match d with
  | [] => simp [processProtobufData]
  | packetType :: messageData =>
    simp only [processProtobufData]
    split
    · unfold handleAuthResponseSuccess
      split <;> simp
    · split
      · unfold handleAuthResponseError
        split <;> simp
      · split
        · unfold handleJoinRoomResponse
          split <;> simp
        · split
          · unfold handleUserJoined
            split <;> simp
          · split
            · unfold handleUserLeft
              split <;> simp
            · simp

/-- Control-packet dispatch changes the state only by storing the session
identifier carried by a decodable AUTH_RESPONSE_SUCCESS payload. -/
theorem processProtobufData_state_cases (c : ProtoCodec) (s : ClientState)
    (d : List Nat) :
    (processProtobufData c s d).state = s
    ∨ ∃ rest r, d = PacketType.AUTH_RESPONSE_SUCCESS :: rest
        ∧ c.decAuthResponseSuccess rest = some r
        ∧ (processProtobufData c s d).state = { s with sessionId := some r.sessionId } := by
  match d with
  | [] => left; rfl
  | packetType :: messageData =>
    simp only [processProtobufData]
    split
    · rename_i hpt
      unfold handleAuthResponseSuccess
      split
      · rename_i r hr
        right
        exact ⟨messageData, r, by rw [hpt], hr, rfl⟩
      · left; rfl
    · split
      · unfold handleAuthResponseError
        split <;> (left; rfl)
      · split
        · unfold handleJoinRoomResponse
          split <;> (left; rfl)
        · split
          · unfold handleUserJoined
            split <;> (left; rfl)
          · split
            · unfold handleUserLeft
              split <;> (left; rfl)
            · left; rfl

/-- Datagram dispatch changes the state only through the control path. -/
theorem processDatagramData_state_cases (c : ProtoCodec) (s : ClientState)
    (d : List Nat) :
    (processDatagramData c s d).state = s
    ∨ ∃ rest r, d = PacketType.AUTH_RESPONSE_SUCCESS :: rest
        ∧ c.decAuthResponseSuccess rest = some r
        ∧ (processDatagramData c s d).state = { s with sessionId := some r.sessionId } := by
  unfold processDatagramData
  split
  · by_cases hlen : 8 ≤ d.length - 1 <;> (left; simp [hlen])
  · exact processProtobufData_state_cases c s d

/-- Key-set membership after an insert-or-overwrite. -/
theorem mem_keys_add (t : Tracker) (u : RoomUser) (id : Int) :
    id ∈ (t.add u).keys ↔ (u.sessionId = id ∨ id ∈ t.keys) := by
  simp only [Tracker.add, Tracker.keys, List.map_append, List.mem_append,
    List.mem_map, List.mem_filter, List.map_cons, List.map_nil, List.mem_singleton]
  constructor
  · rintro (⟨v, ⟨hv, _⟩, rfl⟩ | rfl)
    · exact Or.inr ⟨v, hv, rfl⟩
    · exact Or.inl rfl
  · rintro (rfl | ⟨v, hv, rfl⟩)
    · exact Or.inr rfl
    · by_cases hvu : v.sessionId = u.sessionId
      · exact Or.inr hvu
      · exact Or.inl ⟨v, ⟨hv, by simp [hvu]⟩, rfl⟩

/-- Key-set membership after a removal. -/
theorem mem_keys_remove (t : Tracker) (i id : Int) :
    id ∈ (t.remove i).keys ↔ (id ∈ t.keys ∧ id ≠ i) := by
  simp only [Tracker.remove, Tracker.keys, List.mem_map, List.mem_filter]
  constructor
  · rintro ⟨v, ⟨hv, hne⟩, rfl⟩
    exact ⟨⟨v, hv, rfl⟩, by simpa using hne⟩
  · rintro ⟨⟨v, hv, rfl⟩, hne⟩
    exact ⟨v, ⟨hv, by simpa using hne⟩, rfl⟩

/-- Tracker fold invariant: per-identifier membership tracks the boolean
fold of the claim. -/
theorem tracker_fold_member (id : Int) (evs : List TrackerEvent) :
    ∀ (t : Tracker) (b : Bool), (id ∈ t.keys ↔ b = true) →
      (id ∈ (evs.foldl Tracker.applyEvent t).keys
        ↔ (evs.foldl
            (fun b e =>
              match e with
              | .joined u => if u.sessionId = id then true else b
              | .left i => if i = id then false else b
              | .roomLeft => false
              | .connectionDropped => false)
            b) = true) := by
  induction evs with
  | nil => intro t b h; exact h
  | cons e evs ih =>
    intro t b h
    simp only [List.foldl_cons]
    apply ih
    match e with
    | .joined u =>
      simp only [Tracker.applyEvent, mem_keys_add, h]
      by_cases hu : u.sessionId = id <;> simp [hu]
    | .left i =>
      simp only [Tracker.applyEvent, mem_keys_remove, h]
      by_cases hi : i = id
      · subst hi; simp
      · simp [hi, Ne.symm hi]
    | .roomLeft => simp [Tracker.applyEvent, Tracker.keys]
    | .connectionDropped => simp [Tracker.applyEvent, Tracker.keys]

/-! ## Claim theorems -/

/-- C1 counterexample: in the InRoom state with held session id 42,
sendVoice([1,2,3]) writes the bytes [0xFF,1,2,3], not
[0xFF,0,0,0,0,0,0,0,42,1,2,3] — the client does not embed the session
identifier in the outgoing voice datagram. -/
theorem C1_counterexample :
    sInRoom42.sessionId = some 42
    ∧ (sendVoiceData sInRoom42 [1, 2, 3]).writes = [[255, 1, 2, 3]]
    ∧ (sendVoiceData sInRoom42 [1, 2, 3]).writes
        ≠ [[255, 0, 0, 0, 0, 0, 0, 0, 42, 1, 2, 3]] := by decide

/-- C1 (amended): in the InRoom configuration (connected, truthy session id,
truthy room key, datagram writer held), sendVoiceData performs exactly one
datagram write whose bytes are [0xFF] ++ audio, the state unchanged and no
error; the session identifier is not part of the frame the client sends. -/
theorem C1_sendVoice_write (s : ClientState) (audio : List Nat)
    (hc : s.connected = true) (hsid : jsTruthyBigint s.sessionId = true)
    (hrk : jsTruthyString s.currentRoomKey = true) (hw : s.datagramWriter = true) :
    sendVoiceData s audio = ⟨s, [255 :: audio], none⟩ := by
  simp [sendVoiceData, hc, hsid, hrk, hw]

/-- C1 witness: the amended statement evaluated in the concrete InRoom
state with session id 42 and audio [1,2,3]. -/
theorem C1_witness :
    sInRoom42.connected = true ∧ jsTruthyBigint sInRoom42.sessionId = true
    ∧ jsTruthyString sInRoom42.currentRoomKey = true
    ∧ sInRoom42.datagramWriter = true
    ∧ sendVoiceData sInRoom42 [1, 2, 3] = ⟨sInRoom42, [[255, 1, 2, 3]], none⟩ :=
  ⟨by decide, by decide, by decide, by decide,
    C1_sendVoice_write sInRoom42 [1, 2, 3] (by decide) (by decide) (by decide) (by decide)⟩

/-- C2 counterexample: the voice send path frames payload [1,2,3] (held
session id 42) as [0xFF,1,2,3]; dispatching exactly those bytes fires no
onVoiceData at all (fewer than 9 bytes), so decode of the send-path
encoding of (42,[1,2,3]) is not Some((42,[1,2,3])). -/
theorem C2_counterexample :
    (sendVoiceData sInRoom42 [1, 2, 3]).writes = [[255, 1, 2, 3]]
    ∧ processDatagramData testCodec sInRoom42 [255, 1, 2, 3]
        = ⟨sInRoom42, [], []⟩ := by decide

/-- C2 (amended): the client send path omits the session id, so the
round-trip law holds not for it but for the spec §6 wire format: for every
session id below 2^64 and every payload, dispatching the wire frame
0xFF | be64(id) | payload fires exactly onVoiceData(id, payload), with no
state change and no log. -/
theorem C2_voice_roundtrip (c : ProtoCodec) (s : ClientState) (id : Nat)
    (payload : List Nat) (h : id < 2 ^ 64) :
    processDatagramData c s (specEncodeVoiceFrame id payload)
      = ⟨s, [.onVoiceData (id : Int) payload], []⟩ := by
  have hlen : (beBytes 8 id).length = 8 := beBytes_length 8 id
  unfold processDatagramData specEncodeVoiceFrame
  rw [if_pos (by simp)]
  simp only [List.drop_succ_cons, List.drop_zero]
  rw [if_pos (by simp [hlen])]
  rw [List.take_left' hlen, List.drop_left' hlen, bytesToBigInt_beBytes id h]

/-- C2 witness: the amended round trip evaluated at session id 42 and
payload [1,2,3]. -/
theorem C2_witness :
    (42 : Nat) < 2 ^ 64
    ∧ processDatagramData testCodec sInRoom42 (specEncodeVoiceFrame 42 [1, 2, 3])
        = ⟨sInRoom42, [.onVoiceData 42 [1, 2, 3]], []⟩ :=
  ⟨by decide, C2_voice_roundtrip testCodec sInRoom42 42 [1, 2, 3] (by decide)⟩

/-- C3: after seeding with the JOIN_ROOM_RESPONSE roster and applying the
USER_JOINED/USER_LEFT notifications in arrival order, an identifier is in
the tracker map exactly as the roster-plus-joins-minus-leaves fold
dictates; seed([A,B]) then add(C) then remove(B) yields exactly {A,C};
removing an absent identifier is a no-op (and total, hence cannot raise);
leaving the room or a connection drop clears the map. -/
theorem C3_tracker (roster : List RoomUser) (evs : List TrackerEvent)
    (id : Int) (t : Tracker) :
    (id ∈ (Tracker.run roster evs).keys ↔ memberSpec roster evs id = true)
    ∧ Tracker.run [⟨1, "A"⟩, ⟨2, "B"⟩] [.joined ⟨3, "C"⟩, .left 2]
        = [⟨1, "A"⟩, ⟨3, "C"⟩]
    ∧ (id ∉ t.keys → t.remove id = t)
    ∧ t.applyEvent .roomLeft = [] ∧ t.applyEvent .connectionDropped = [] := by
  refine ⟨?_, by decide, ?_, rfl, rfl⟩
  · exact tracker_fold_member id evs (Tracker.seed roster) _
      (by simp [List.elem_iff, Tracker.keys, Tracker.seed])
  · intro hid
    apply List.filter_eq_self.mpr
    intro v hv
    simp only [bne_iff_ne, ne_eq]
    intro hEq
    exact hid (hEq ▸ List.mem_map_of_mem RoomUser.sessionId hv)

/-- C3 witness: the tracker facts evaluated on concrete rosters, events and
identifiers, discharging the absent-identifier hypothesis at id 7. -/
theorem C3_witness :
    (7 : Int) ∉ Tracker.keys [⟨1, "A"⟩]
    ∧ Tracker.remove [⟨1, "A"⟩] 7 = [⟨1, "A"⟩]
    ∧ ((7 : Int) ∈ (Tracker.run [⟨1, "A"⟩] [.left 5]).keys
        ↔ memberSpec [⟨1, "A"⟩] [.left 5] 7 = true) := by
  have h := C3_tracker [⟨1, "A"⟩] [.left 5] 7 [⟨1, "A"⟩]
  exact ⟨by decide, h.2.2.1 (by decide), h.1⟩

/-- C4: authenticate before Connected fails with NotConnected and writes
nothing; in Connected (writer held) it sends exactly one AUTH_REQUEST
datagram, changing neither connection status, session identifier nor room
key; the session identifier is set only by dispatch of a decodable
AUTH_RESPONSE_SUCCESS (to the id that packet carries, firing
onAuthSuccess), while AUTH_RESPONSE_ERROR leaves all session state
unchanged and fires onAuthError. -/
theorem C4_authenticate (c : ProtoCodec) (s : ClientState) (u : String)
    (d : List Nat) :
    (s.connected = false → authenticate c s u = ⟨s, [], some .notConnected⟩)
    ∧ (s.connected = true → s.datagramWriter = true →
        authenticate c s u
          = ⟨{ s with username := some u },
             [PacketType.AUTH_REQUEST :: c.encAuthRequest ⟨u, ""⟩], none⟩)
    ∧ (∀ r, c.decAuthResponseSuccess d = some r →
        handleAuthResponseSuccess c s d
          = ⟨{ s with sessionId := some r.sessionId },
             [.onAuthSuccess r.sessionId], []⟩)
    ∧ (∀ e, c.decAuthResponseError d = some e →
        handleAuthResponseError c s d = ⟨s, [.onAuthError e.type], []⟩)
    ∧ ((processDatagramData c s d).state.sessionId ≠ s.sessionId →
        ∃ rest r, d = PacketType.AUTH_RESPONSE_SUCCESS :: rest
          ∧ c.decAuthResponseSuccess rest = some r
          ∧ (processDatagramData c s d).state.sessionId = some r.sessionId) := by
  refine ⟨fun h => by simp [authenticate, h], ?_, ?_, ?_, ?_⟩
  · intro hc hw
    simp [authenticate, sendProtobufMessage, hc, hw]
  · intro r hr
    simp [handleAuthResponseSuccess, hr]
  · intro e he
    simp [handleAuthResponseError, he]
  · intro hne
    rcases processDatagramData_state_cases c s d with h | ⟨rest, r, hd, hr, hst⟩
    · exact absurd (by rw [h]) hne
    · exact ⟨rest, r, hd, hr, by rw [hst]⟩

/-- C4 witness: the authenticate contract evaluated in the initial and
connected states with the concrete codec, a payload decoding to session id
0, and an error payload decoding to error type 0. -/
theorem C4_witness :
    authenticate testCodec sInitial "alice" = ⟨sInitial, [], some .notConnected⟩
    ∧ authenticate testCodec sConnected "alice"
        = ⟨{ sConnected with username := some "alice" }, [[0, 10]], none⟩
    ∧ handleAuthResponseSuccess testCodec sConnected []
        = ⟨{ sConnected with sessionId := some 0 }, [.onAuthSuccess 0], []⟩
    ∧ handleAuthResponseError testCodec sConnected []
        = ⟨sConnected, [.onAuthError 0], []⟩
    ∧ (∃ rest r, [1, 5, 5] = PacketType.AUTH_RESPONSE_SUCCESS :: rest
        ∧ testCodec.decAuthResponseSuccess rest = some r
        ∧ (processDatagramData testCodec sConnected [1, 5, 5]).state.sessionId
            = some r.sessionId) :=
  ⟨(C4_authenticate testCodec sInitial "alice" []).1 (by decide),
   (C4_authenticate testCodec sConnected "alice" []).2.1 (by decide) (by decide),
   (C4_authenticate testCodec sConnected "alice" []).2.2.1 ⟨0⟩ (by decide),
   (C4_authenticate testCodec sConnected "alice" []).2.2.2.1 ⟨0⟩ (by decide),
   (C4_authenticate testCodec sConnected "alice" [1, 5, 5]).2.2.2.2 (by decide)⟩

/-- C5 counterexample: calling joinRoom in the initial (not connected)
state is a precondition failure, but it yields NotConnected, not
NotAuthenticated as the claim asserts for precondition failures. -/
theorem C5_counterexample :
    joinRoom testCodec sInitial "room1" = ⟨sInitial, [], some .notConnected⟩
    ∧ (joinRoom testCodec sInitial "room1").error
        ≠ some ClientError.notAuthenticated := by decide

/-- C5 (amended): joinRoom is legal only in Authenticated or InRoom; the
not-connected precondition failure yields NotConnected and the
connected-but-unauthenticated failure yields NotAuthenticated, both with
nothing sent and no state changed; when legal it records the room key
before any response arrives and sends exactly one JOIN_ROOM_REQUEST; a
decodable JOIN_ROOM_RESPONSE then delivers the roster via onJoinedRoom
(which seeds the membership) and the session is in the InRoom state for
every non-empty room key, while the empty room key — though recorded and
sent — leaves the derived state Authenticated, because the empty string is
JS-falsy for the precondition checks. -/
theorem C5_joinRoom (c : ProtoCodec) (s : ClientState) (rk : String)
    (d : List Nat) :
    (s.connected = false → joinRoom c s rk = ⟨s, [], some .notConnected⟩)
    ∧ (s.connected = true → jsTruthyBigint s.sessionId = false →
        joinRoom c s rk = ⟨s, [], some .notAuthenticated⟩)
    ∧ (s.connected = true → jsTruthyBigint s.sessionId = true →
        s.datagramWriter = true →
        joinRoom c s rk
          = ⟨{ s with currentRoomKey := some rk },
             [PacketType.JOIN_ROOM_REQUEST :: c.encJoinRoomRequest ⟨rk⟩], none⟩)
    ∧ (∀ r, c.decJoinRoomResponse d = some r →
        processProtobufData c (joinRoom c s rk).state
            (PacketType.JOIN_ROOM_RESPONSE :: d)
          = ⟨(joinRoom c s rk).state, [.onJoinedRoom r.users], []⟩)
    ∧ (s.connected = true → jsTruthyBigint s.sessionId = true →
        sessionStateName (joinRoom c s rk).state
          = (if rk = "" then SessionStateName.authenticated
             else SessionStateName.inRoom)) := by
  refine ⟨fun h => by simp [joinRoom, h], ?_, ?_, ?_, ?_⟩
  · intro hc hsid
    simp [joinRoom, hc, hsid]
  · intro hc hsid hw
    simp [joinRoom, sendProtobufMessage, hc, hsid, hw]
  · intro r hr
    simp [processProtobufData, handleJoinRoomResponse, PacketType.JOIN_ROOM_RESPONSE,
      PacketType.AUTH_RESPONSE_SUCCESS, PacketType.AUTH_RESPONSE_ERROR, hr]
  · intro hc hsid
    by_cases hrk : rk = "" <;>
      cases hw : s.datagramWriter <;>
        simp [joinRoom, sendProtobufMessage, sessionStateName, jsTruthyString,
          hc, hsid, hw, hrk]

/-- C5 witness: the amended joinRoom contract evaluated in the initial,
connected and authenticated states with room key "room1", plus the derived
state after joining with the empty room key. -/
theorem C5_witness :
    joinRoom testCodec sInitial "room1" = ⟨sInitial, [], some .notConnected⟩
    ∧ joinRoom testCodec sConnected "room1" = ⟨sConnected, [], some .notAuthenticated⟩
    ∧ joinRoom testCodec sAuthenticated "room1"
        = ⟨{ sAuthenticated with currentRoomKey := some "room1" }, [[3, 11]], none⟩
    ∧ processProtobufData testCodec (joinRoom testCodec sAuthenticated "room1").state [4]
        = ⟨(joinRoom testCodec sAuthenticated "room1").state,
           [.onJoinedRoom [⟨7, "alice"⟩]], []⟩
    ∧ sessionStateName (joinRoom testCodec sAuthenticated "room1").state = .inRoom
    ∧ sessionStateName (joinRoom testCodec sAuthenticated "").state = .authenticated := by
  refine ⟨(C5_joinRoom testCodec sInitial "room1" []).1 (by decide),
    (C5_joinRoom testCodec sConnected "room1" []).2.1 (by decide) (by decide),
    (C5_joinRoom testCodec sAuthenticated "room1" []).2.2.1 (by decide) (by decide) (by decide),
    (C5_joinRoom testCodec sAuthenticated "room1" []).2.2.2.1 ⟨[⟨7, "alice"⟩]⟩ (by decide),
    ?_, ?_⟩
  · have h := (C5_joinRoom testCodec sAuthenticated "room1" []).2.2.2.2 (by decide) (by decide)
    simpa using h
  · have h := (C5_joinRoom testCodec sAuthenticated "" []).2.2.2.2 (by decide) (by decide)
    simpa using h

/-- C6: a datagram whose first byte is a control discriminant in {0..6} is
never classified as a voice frame — it takes the control path and no
onVoiceData can fire — and a datagram starting 0xFF with total length
below 9 is dropped as a malformed voice frame: no event, no log, no state
change, and no retry through the control path. -/
theorem C6_classification (c : ProtoCodec) (s : ClientState) (d : List Nat) :
    (d.head! ≤ 6 →
      processDatagramData c s d = processProtobufData c s d
      ∧ ∀ id audio, ClientEvent.onVoiceData id audio ∉ (processDatagramData c s d).events)
    ∧ (d.head! = 255 → d.length < 9 →
      processDatagramData c s d = ⟨s, [], []⟩) := by
  constructor
  · intro hle
    have hne : ¬(0 < d.length ∧ d.head! = 255) := by
      rintro ⟨-, h255⟩
      omega
    have heq : processDatagramData c s d = processProtobufData c s d := by
      unfold processDatagramData
      rw [if_neg hne]
    exact ⟨heq, fun id audio => heq ▸ processProtobufData_no_voice c s d id audio⟩
  · intro h255 hlen
    match d, h255 with
    | b :: rest, h255 =>
      simp only [List.head!] at h255
      unfold processDatagramData
      rw [if_pos ⟨by simp, by simp [h255]⟩]
      simp only [List.drop_succ_cons, List.drop_zero]
      rw [if_neg (by simp at hlen ⊢; omega)]

/-- C6 witness: classification evaluated on a control datagram of type 3
and on a 3-byte sentinel-led datagram. -/
theorem C6_witness :
    ([3, 9, 9].head! ≤ 6)
    ∧ processDatagramData testCodec sConnected [3, 9, 9]
        = processProtobufData testCodec sConnected [3, 9, 9]
    ∧ ClientEvent.onVoiceData 5 [9] ∉ (processDatagramData testCodec sConnected [3, 9, 9]).events
    ∧ processDatagramData testCodec sConnected [255, 1, 2] = ⟨sConnected, [], []⟩ :=
  ⟨by decide,
   ((C6_classification testCodec sConnected [3, 9, 9]).1 (by decide)).1,
   ((C6_classification testCodec sConnected [3, 9, 9]).1 (by decide)).2 5 [9],
   (C6_classification testCodec sConnected [255, 1, 2]).2 (by decide) (by decide)⟩

/-- C7: close resets the session identifier, username and room key
together, releases the datagram writer, closes the transport and clears
the connected flag; a second close from the closed state is a no-op
(idempotence), and the operation is total, so it cannot raise. -/
theorem C7_close (s : ClientState) :
    (close s).sessionId = none ∧ (close s).username = none
    ∧ (close s).currentRoomKey = none ∧ (close s).datagramWriter = false
    ∧ (close s).wtClosed = true ∧ (close s).connected = false
    ∧ close (close s) = close s :=
  ⟨rfl, rfl, rfl, rfl, rfl, rfl, rfl⟩

/-- C8: a zero-length control payload is dropped (the malformed-packet
case) with no event fired, no log and no state change, and an unrecognized
leading type byte is dropped with a console warning, again with no event
and no state change; dispatch is total, so no exception reaches the read
loop and the session continues. -/
theorem C8_control_errors (c : ProtoCodec) (s : ClientState) (t : Nat)
    (rest : List Nat) :
    processProtobufData c s [] = ⟨s, [], []⟩
    ∧ (t ≠ PacketType.AUTH_RESPONSE_SUCCESS → t ≠ PacketType.AUTH_RESPONSE_ERROR →
       t ≠ PacketType.JOIN_ROOM_RESPONSE → t ≠ PacketType.USER_JOINED →
       t ≠ PacketType.USER_LEFT →
       processProtobufData c s (t :: rest)
         = ⟨s, [], [.warnUnknownPacketType t]⟩) := by
  refine ⟨rfl, ?_⟩
  intro h1 h2 h3 h4 h5
  simp [processProtobufData, h1, h2, h3, h4, h5]

/-- C8 witness: the malformed and unknown-type cases evaluated on the empty
payload and on a type-7 packet. -/
theorem C8_witness :
    processProtobufData testCodec sConnected [] = ⟨sConnected, [], []⟩
    ∧ processProtobufData testCodec sConnected [7, 1, 2]
        = ⟨sConnected, [], [.warnUnknownPacketType 7]⟩ :=
  ⟨(C8_control_errors testCodec sConnected 7 [1, 2]).1,
   (C8_control_errors testCodec sConnected 7 [1, 2]).2
     (by decide) (by decide) (by decide) (by decide) (by decide)⟩

/-- C9: when AUTH_RESPONSE_SUCCESS delivers session identifier 0, the
handler stores it and fires onAuthSuccess(0) — authentication has
succeeded — yet joinRoom, leaveRoom and sendVoiceData all fail with the
not-authenticated error afterwards, because the JS truthiness precondition
treats the held session id 0 as absent. -/
theorem C9_zero_session (c : ProtoCodec) (s : ClientState) (d : List Nat)
    (rk : String) (audio : List Nat)
    (hc : s.connected = true)
    (hd : c.decAuthResponseSuccess d = some ⟨0⟩) :
    handleAuthResponseSuccess c s d
      = ⟨{ s with sessionId := some 0 }, [.onAuthSuccess 0], []⟩
    ∧ joinRoom c { s with sessionId := some 0 } rk
        = ⟨{ s with sessionId := some 0 }, [], some .notAuthenticated⟩
    ∧ leaveRoom { s with sessionId := some 0 }
        = ⟨{ s with sessionId := some 0 }, [], some .notAuthenticated⟩
    ∧ sendVoiceData { s with sessionId := some 0 } audio
        = ⟨{ s with sessionId := some 0 }, [], some .notAuthenticated⟩ := by
  refine ⟨by simp [handleAuthResponseSuccess, hd], ?_, ?_, ?_⟩
  · simp [joinRoom, jsTruthyBigint, hc]
  · simp [leaveRoom, jsTruthyBigint, hc]
  · simp [sendVoiceData, jsTruthyBigint, hc]

/-- C9 witness: the zero-session lockout evaluated in the connected state
with an empty payload (which the concrete codec decodes to session id 0). -/
theorem C9_witness :
    handleAuthResponseSuccess testCodec sConnected []
      = ⟨{ sConnected with sessionId := some 0 }, [.onAuthSuccess 0], []⟩
    ∧ joinRoom testCodec { sConnected with sessionId := some 0 } "room1"
        = ⟨{ sConnected with sessionId := some 0 }, [], some .notAuthenticated⟩
    ∧ leaveRoom { sConnected with sessionId := some 0 }
        = ⟨{ sConnected with sessionId := some 0 }, [], some .notAuthenticated⟩
    ∧ sendVoiceData { sConnected with sessionId := some 0 } [1]
        = ⟨{ sConnected with sessionId := some 0 }, [], some .notAuthenticated⟩ :=
  C9_zero_session testCodec sConnected [] "room1" [1] (by decide) (by decide)

/-- C10: a USER_LEFT payload of length at least 8 fires onUserLeft with the
big-endian integer of the ENTIRE payload — the 9-byte payload
[0,0,0,0,0,0,0,1,0] yields 256 while its first 8 bytes alone encode 1 —
and the handler is total, so it never raises; a payload shorter than 8
bytes is silently dropped without firing onUserLeft. -/
theorem C10_userLeft (s : ClientState) (d : List Nat) :
    (8 ≤ d.length →
      handleUserLeft s d = ⟨s, [.onUserLeft (bytesToBigInt d : Int)], []⟩)
    ∧ (d.length < 8 → handleUserLeft s d = ⟨s, [], []⟩)
    ∧ handleUserLeft s [0, 0, 0, 0, 0, 0, 0, 1, 0] = ⟨s, [.onUserLeft 256], []⟩
    ∧ bytesToBigInt (List.take 8 [0, 0, 0, 0, 0, 0, 0, 1, 0]) = 1 := by
  refine ⟨fun h => by simp [handleUserLeft, h], fun h => ?_, rfl, by decide⟩
  simp [handleUserLeft, Nat.not_le.mpr h]

/-- C10 witness: the USER_LEFT handling evaluated on a 9-byte payload and
on a 2-byte payload in the InRoom state. -/
theorem C10_witness :
    (8 ≤ ([0, 0, 0, 0, 0, 0, 0, 1, 0] : List Nat).length)
    ∧ handleUserLeft sInRoom42 [0, 0, 0, 0, 0, 0, 0, 1, 0]
        = ⟨sInRoom42, [.onUserLeft 256], []⟩
    ∧ (([1, 2] : List Nat).length < 8)
    ∧ handleUserLeft sInRoom42 [1, 2] = ⟨sInRoom42, [], []⟩ :=
  ⟨by decide,
   (C10_userLeft sInRoom42 [0, 0, 0, 0, 0, 0, 0, 1, 0]).1 (by decide),
   by decide,
   (C10_userLeft sInRoom42 [1, 2]).2.1 (by decide)⟩
